import Mathlib

/-!
Verification development for the finam-plot push-based plotting components.

The Python sources under `src/finam_plot/` are shallowly embedded as Lean
state records with explicit step functions.  External collaborators (the
finam coupling framework and the matplotlib backend) are modelled through
their contract surface only: `pull_data` is an environment function that
either yields a value or signals `FinamNoDataError`, and backend drawing
calls are recorded as counters (`repaints`) and creation stamps on the
cached drawable handles.  Fallible Python code (raised exceptions) becomes
`Except Err`.
-/

/-- The finam component lifecycle status enum (`finam.ComponentStatus`). -/
inductive ComponentStatus
  | created
  | initialized
  | connecting
  | connected
  | validated
  | updated
  | finished
  | finalized
  | failed
deriving Repr, DecidableEq

/-- A Python value passed as the `time` argument of a notify callback:
`None`, a `datetime` (modelled by an integer timestamp), or a value of any
other, wrong, kind (e.g. an `int`), tagged to keep distinct wrong values. -/
inductive PyTime
  | none
  | datetime (t : Int)
  | wrongKind (tag : Nat)
deriving Repr, DecidableEq

/-- Python `isinstance(time, datetime)`. -/
def PyTime.isDatetime : PyTime → Bool
  | .datetime _ => true
  | _ => false

/-- Exceptions raised by the embedded code. -/
inductive Err
  | finamNoDataError
  | valueError (msg : String)
  | typeError
  | attributeError
  | notImplementedError
deriving Repr, DecidableEq

/-- The finam grid class hierarchy, as a closed variant.  In finam,
`EsriGrid` is a subclass of `UniformGrid`, which is a subclass of
`RectilinearGrid`; unstructured grids form a separate branch.  The
`unstructured` constructor carries whether the data location is `POINTS`
and whether all cell types are `TRI`; geometric payloads are out of the
contract surface the components consume. -/
inductive Grid
  | uniform (dim : Nat)
  | esri (dim : Nat)
  | rectilinear (dim : Nat)
  | unstructured (pointsLocation : Bool) (allTri : Bool)
  | unstructuredPoints
  | noGrid (dim : Nat)
deriving Repr, DecidableEq

/-- Python `isinstance(g, fm.UniformGrid)` (EsriGrid is a subclass). -/
def Grid.isUniformGrid : Grid → Bool
  | .uniform _ | .esri _ => true
  | _ => false

/-- Python `isinstance(g, fm.RectilinearGrid)` (UniformGrid and EsriGrid
are subclasses). -/
def Grid.isRectilinearGrid : Grid → Bool
  | .uniform _ | .esri _ | .rectilinear _ => true
  | _ => false

/-- Python `isinstance(g, fm.UnstructuredGrid)` (UnstructuredPoints is a
subclass). -/
def Grid.isUnstructuredGrid : Grid → Bool
  | .unstructured _ _ | .unstructuredPoints => true
  | _ => false

/-- Grid dimensionality (`grid.dim`).  Unstructured grids in the plots at
hand are two-dimensional point or cell sets. -/
def Grid.dim : Grid → Nat
  | .uniform d | .esri d | .rectilinear d | .noGrid d => d
  | .unstructured _ _ | .unstructuredPoints => 2

/-- PlotBase.should_repaint: returns whether the plot should repaint based
on its update interval, and the incremented update counter
(`rep = self._update_counter % self._update_interval == 0;
self._update_counter += 1`). -/
def shouldRepaint (interval counter : Nat) : Bool × Nat :=
  (counter % interval == 0, counter + 1)

/-- State of a `TimeSeriesPlot` (time_series.py).  `figure` records whether
`create_figure` has run (`self.figure is not None`); `lines` is
`self._lines` where `some stamp` is a created list of line handles with a
creation stamp; `linesCreations` counts how often `self._lines` was
assigned a fresh (non-None) value; `repaints` counts render flushes
(`PlotBase.repaint`); `pulls` counts successful `pull_data` calls. -/
structure TsState where
  status : ComponentStatus
  update_interval : Nat
  update_counter : Nat
  time : PyTime
  caller : Option Nat
  x : List (List PyTime)
  data : List (List Int)
  lines : Option Nat
  linesCreations : Nat
  figure : Bool
  repaints : Nat
  pulls : Nat
deriving Repr, DecidableEq

/-- Environment of a `TimeSeriesPlot`: the number of declared inputs and
the upstream `pull_data` behaviour per input index and time (`Option.none`
models `fm.FinamNoDataError`; the pulled magnitude is abstracted to an
integer). -/
structure TsEnv where
  nInputs : Nat
  data : Nat → PyTime → Option Int

/-- PlotBase.repaint: `self.axes.relim()` / `canvas.draw_idle()` /
`flush_events()`.  With no figure created, `self.axes` and `self.figure`
are `None` and the attribute access raises. -/
def TsState.repaint (s : TsState) : Except Err TsState :=
  if s.figure then .ok { s with repaints := s.repaints + 1 }
  else .error .attributeError

/-- The `if self._lines is None` prologue of TimeSeriesPlot._update_plot:
creates one line handle per input via `self.axes.plot`.  Needs the axes
object, which exists only once the figure was created. -/
def TsState.createLines (s : TsState) : Except Err TsState :=
  if s.lines = Option.none then
    if s.figure then
      .ok { s with lines := some s.linesCreations,
                   linesCreations := s.linesCreations + 1 }
    else .error .attributeError
  else .ok s

/-- One iteration of the input loop of TimeSeriesPlot._update_plot: for
input `i`, if `self._caller is None or self.inputs[inp] == self._caller`,
pull the value at `self._time`, append the time to `self._x[i]` and the
magnitude to `self._data[i]`, and mutate the cached line in place. -/
def TsState.updatePlotStep (env : TsEnv) (i : Nat) (s : TsState) :
    Except Err TsState :=
  if s.caller = Option.none ∨ s.caller = some i then
    match env.data i s.time with
    | Option.none => .error .finamNoDataError
    | some v =>
        .ok { s with pulls := s.pulls + 1,
                     x := s.x.set i (s.x.getD i [] ++ [s.time]),
                     data := s.data.set i (s.data.getD i [] ++ [v]) }
  else .ok s

/-- TimeSeriesPlot._update_plot. -/
def TsState.updatePlot (env : TsEnv) (s : TsState) : Except Err TsState := do
  let s1 ← s.createLines
  (List.range env.nInputs).foldlM
    (fun st i => TsState.updatePlotStep env i st) s1

/-- TimeSeriesPlot._data_changed, the notify callback: cadence-gated
repaint when the carried time differs from the previously seen one, then
record caller and time, then update the plot if the status is UPDATED or
VALIDATED. -/
def TsState.dataChanged (env : TsEnv) (caller : Nat) (time : PyTime)
    (s : TsState) : Except Err TsState := do
  let s1 ←
    if s.time ≠ time then
      let (rep, c) := shouldRepaint s.update_interval s.update_counter
      let s1 := { s with update_counter := c }
      if rep then s1.repaint else pure s1
    else pure s
  let s2 := { s1 with caller := some caller, time := time }
  if s2.status = .updated ∨ s2.status = .validated then
    s2.updatePlot env
  else
    pure s2

/-- TimeSeriesPlot._connect, reduced to the component-local effect this
development tracks: the figure is created on the first call
(`if self.figure is None: ... self.create_figure() ...`).  The
`try_connect` negotiation is host-driven and out of scope. -/
def TsState.connectFigure (s : TsState) : TsState :=
  if s.figure then s else { s with figure := true }

/-- TimeSeriesPlot._validate: clear the caller, update the plot for every
input, and show the figure. -/
def TsState.validateComp (env : TsEnv) (s : TsState) : Except Err TsState := do
  let s1 := { s with caller := Option.none }
  let s2 ← s1.updatePlot env
  if s2.figure then .ok { s2 with status := .validated }
  else .error .attributeError

/-- TimeSeriesPlot._finalize: `self.repaint(relim=True)`. -/
def TsState.finalizeComp (s : TsState) : Except Err TsState :=
  s.repaint

/-- A freshly constructed `TimeSeriesPlot` with `n` inputs and the given
update interval (the `__init__` state). -/
def TsState.fresh (n interval : Nat) : TsState :=
  { status := .created
    update_interval := interval
    update_counter := 0
    time := PyTime.none
    caller := Option.none
    x := List.replicate n []
    data := List.replicate n []
    lines := Option.none
    linesCreations := 0
    figure := false
    repaints := 0
    pulls := 0 }

/-- TimeSeriesPlot._initialize: inputs are registered and the host moves
the status to INITIALIZED.  No figure and no data pull happen here. -/
def TsState.initComp (s : TsState) : TsState :=
  { s with status := .initialized }

/-- State of an `ImagePlot` (image.py).  The `axes` field is the
constructor's axes argument with axis names already resolved to indices
(the `axes_names` dictionary lookup of `_plot`); `info` is the resolved
exchange info's grid; `image` is `self._image` with a creation stamp and
`imageCreations` counts fresh assignments to it; `repaints` counts
`canvas.draw()`/`flush_events()` pairs. -/
structure ImgState where
  status : ComponentStatus
  time : PyTime
  figure : Bool
  axes : Int × Int
  info : Option Grid
  image : Option Nat
  imageCreations : Nat
  repaints : Nat
  pulls : Nat
deriving Repr, DecidableEq

/-- Environment of an `ImagePlot`: the upstream `pull_data` behaviour for
its single "Grid" input (`Option.none` models `fm.FinamNoDataError`). -/
structure ImgEnv where
  data : PyTime → Option Int

/-- ImagePlot._plot_image: dispatch on the axes tuple (transposing or
flipping the array is a pure data transformation and is abstracted), then
either create the image handle once (`imshow`, colorbar, time text) or
mutate it in place (`set_data`). -/
def ImgState.plotImage (d : Int) (s : ImgState) : Except Err ImgState :=
  if s.axes = (0, 1) ∨ s.axes = (1, 0) then
    if s.image = Option.none then
      .ok { s with image := some s.imageCreations,
                   imageCreations := s.imageCreations + 1 }
    else .ok s
  else .error (.valueError "Unsupported axes")

/-- ImagePlot._plot: pull the current value; on `FinamNoDataError` return
silently when the status is VALIDATED or INITIALIZED and re-raise
otherwise.  On data, create the figure on first use, draw the image and
flush the canvas. -/
def ImgState.plot (env : ImgEnv) (s : ImgState) : Except Err ImgState := do
  match env.data s.time with
  | Option.none =>
      if s.status = .validated ∨ s.status = .initialized then .ok s
      else .error .finamNoDataError
  | some d =>
      let s1 := { s with pulls := s.pulls + 1 }
      let s2 := if s1.figure then s1 else { s1 with figure := true }
      let s3 ← s2.plotImage d
      .ok { s3 with repaints := s3.repaints + 1 }

/-- ImagePlot._update: `self._plot()`. -/
def ImgState.update (env : ImgEnv) (s : ImgState) : Except Err ImgState :=
  s.plot env

/-- ImagePlot._data_changed: reject a time of the wrong kind immediately,
then record the time and plot (through `_update` when the status is
UPDATED or VALIDATED, directly otherwise; both paths end in `_plot`). -/
def ImgState.dataChanged (env : ImgEnv) (time : PyTime) (s : ImgState) :
    Except Err ImgState :=
  if time ≠ PyTime.none ∧ time.isDatetime = false then
    .error (.valueError "Time must be of type datetime")
  else
    let s1 := { s with time := time }
    if s1.status = .updated ∨ s1.status = .validated then s1.update env
    else s1.plot env

/-- The grid-kind check of ImagePlot._connect, run once the input info has
resolved. -/
def ImgState.connectCheck (g : Grid) : Except Err Unit :=
  if g.isUniformGrid then
    if g.dim ≠ 2 then
      .error (.valueError "Only 2-D UniformGrid is supported in image plot.")
    else .ok ()
  else .error (.valueError "Only UniformGrid is supported in image plot.")

/-- ImagePlot._connect: after `try_connect`, if the exchanged info has
resolved, store it and validate the grid kind.  No data is pulled here. -/
def ImgState.connect (inInfo : Option Grid) (s : ImgState) :
    Except Err ImgState := do
  match inInfo with
  | Option.none => .ok s
  | some g =>
      let s1 := { s with info := some g }
      let _ ← ImgState.connectCheck g
      .ok s1

/-- ImagePlot._finalize: `pass`. -/
def ImgState.finalizeComp (s : ImgState) : Except Err ImgState :=
  .ok s

/-- A freshly constructed `ImagePlot` with the default axes `(0, 1)`. -/
def ImgState.fresh : ImgState :=
  { status := .created
    time := PyTime.none
    figure := false
    axes := (0, 1)
    info := Option.none
    image := Option.none
    imageCreations := 0
    repaints := 0
    pulls := 0 }

/-- ImagePlot._initialize: the "Grid" callback input is registered and the
host moves the status to INITIALIZED. -/
def ImgState.initComp (s : ImgState) : ImgState :=
  { s with status := .initialized }

/-- State of a `ColorMeshPlot` (colormesh.py), restricted to the fields
its `_connect` touches; the notify/plot path mirrors `ImagePlot` and is
not duplicated here. -/
structure CmState where
  info : Option Grid
  pulls : Nat
deriving Repr, DecidableEq

/-- The grid-kind check of ColorMeshPlot._connect. -/
def CmState.connectCheck (g : Grid) : Except Err Unit :=
  if g.isRectilinearGrid then
    if g.dim ≠ 2 then
      .error (.valueError "Only 2-D RectilinearGrid is supported in colormesh plot.")
    else .ok ()
  else .error (.valueError "Only RectilinearGrid is supported in colormesh plot.")

/-- ColorMeshPlot._connect: store the resolved info and validate the grid
kind.  No data is pulled here. -/
def CmState.connect (inInfo : Option Grid) (s : CmState) :
    Except Err CmState := do
  match inInfo with
  | Option.none => .ok s
  | some g =>
      let s1 := { s with info := some g }
      let _ ← CmState.connectCheck g
      .ok s1

/-- State of a `ContourPlot` (contour.py).  `contours` is `self._contours`
with a creation stamp; `contoursCreations` counts fresh assignments to it;
`triangulationSet` records `self.triangulation is not None`. -/
structure CtState where
  status : ComponentStatus
  update_interval : Nat
  update_counter : Nat
  time : PyTime
  grid : Option Grid
  figure : Bool
  contours : Option Nat
  contoursCreations : Nat
  triangulate : Bool
  fill : Bool
  triangulationSet : Bool
  repaints : Nat
  pulls : Nat
deriving Repr, DecidableEq

/-- Environment of a `ContourPlot`: the upstream `pull_data` behaviour for
its "Grid" input. -/
structure CtEnv where
  data : PyTime → Option Int

/-- ContourPlot._plot_structured: the guard
`if axes != (0, 1) or axes != (1, 0)` raises for every axes value, so the
`contour`/`contourf` call below it is unreachable. -/
def CtState.plotStructured (axes : Int × Int) (d : Int) (s : CtState) :
    Except Err CtState :=
  if axes ≠ (0, 1) ∨ axes ≠ (1, 0) then
    .error (.valueError "Unsupported axes")
  else
    .ok { s with contours := some s.contoursCreations,
                 contoursCreations := s.contoursCreations + 1 }

/-- ContourPlot._plot_unstructured, embedded as the method it is:
triangulation requirements are enforced, the triangulation is cached on
first use, and a fresh contour set is assigned to `self._contours` on
every call (`tricontour`, `tricontourf` or `tripcolor`; the geometric
payload is abstracted).  In this snapshot `_plot` never actually reaches
it, because the render pass raises first (see `CtState.renderPass`). -/
def CtState.plotUnstructured (d : Int) (s : CtState) : Except Err CtState :=
  match s.grid with
  | some Grid.unstructuredPoints =>
      if s.triangulate = false then
        .error (.valueError "Data requires triangulation. Use with triangulate=True")
      else
        .ok { s with triangulationSet := true,
                     contours := some s.contoursCreations,
                     contoursCreations := s.contoursCreations + 1 }
  | some (Grid.unstructured pointsLocation allTri) =>
      if pointsLocation then
        if allTri = false ∧ s.triangulate = false then
          .error (.valueError "Data requires triangulation. Use with triangulate=True")
        else
          .ok { s with triangulationSet := true,
                       contours := some s.contoursCreations,
                       contoursCreations := s.contoursCreations + 1 }
      else
        if s.fill then
          if allTri = false then .error .notImplementedError
          else
            .ok { s with contours := some s.contoursCreations,
                         contoursCreations := s.contoursCreations + 1 }
        else
          .ok { s with triangulationSet := true,
                       contours := some s.contoursCreations,
                       contoursCreations := s.contoursCreations + 1 }
  | _ => .error .attributeError

/-- The body of ContourPlot._plot once a repaint is due.  In this
snapshot it raises before reaching the grid-kind dispatch and the final
`self.repaint(relim=False)` flush: `self._info.grid.axes` is the grid
specification's axis-array list (image.py, colormesh.py and grid_spec.py
all index it), not a matplotlib axes object, so on the first due repaint
`self._info.grid.axes.set_aspect("equal")` raises an attribute error
(and, were it reached, the `axes_names[ax]` lookup over
`list(self._info.grid.axes)` would raise as well); on later due repaints
`self._time_text.set_text` fails the same way because `self._time_text`
was never assigned.  With `self._info` unresolved the very first
attribute access raises too.  `_plot_structured`/`_plot_unstructured`
are therefore unreachable from `_plot` and are embedded separately. -/
def CtState.renderPass (env : CtEnv) (d : Int) (s : CtState) :
    Except Err CtState :=
  match s.grid with
  | Option.none => .error Err.attributeError
  | some _ => .error Err.attributeError

/-- ContourPlot._plot: pull the value (silently returning on
`FinamNoDataError` in status VALIDATED or INITIALIZED, re-raising
otherwise), then gate on `should_repaint` — the update counter advances on
every notify whose pull succeeded — and render if due. -/
def CtState.plot (env : CtEnv) (s : CtState) : Except Err CtState := do
  match env.data s.time with
  | Option.none =>
      if s.status = .validated ∨ s.status = .initialized then .ok s
      else .error .finamNoDataError
  | some d =>
      let s1 := { s with pulls := s.pulls + 1 }
      let (rep, c) := shouldRepaint s1.update_interval s1.update_counter
      let s2 := { s1 with update_counter := c }
      if rep = false then .ok s2
      else s2.renderPass env d

/-- ContourPlot._data_changed: reject a time of the wrong kind
immediately, then record the time and plot unconditionally. -/
def CtState.dataChanged (env : CtEnv) (time : PyTime) (s : CtState) :
    Except Err CtState :=
  if time ≠ PyTime.none ∧ time.isDatetime = false then
    .error (.valueError "Time must be of type datetime")
  else
    CtState.plot env { s with time := time }

/-- ContourPlot inherits PlotBase._finalize, which is `pass`. -/
def CtState.finalizeComp (s : CtState) : Except Err CtState :=
  .ok s

/-- State of an `XyPlot` (xy.py).  `lines` is `self._lines` with a
creation stamp and `linesCreations` counts fresh assignments to it;
`figure` records whether `_connect` has created the figure and axes. -/
structure XyState where
  status : ComponentStatus
  update_interval : Nat
  update_counter : Nat
  time : PyTime
  caller : Option Nat
  lines : Option Nat
  linesCreations : Nat
  figure : Bool
  repaints : Nat
  pulls : Nat
deriving Repr, DecidableEq

/-- Environment of an `XyPlot`: input count, per-input `pull_data`
behaviour, and the resolved grid of each input (`self._infos`). -/
structure XyEnv where
  nInputs : Nat
  data : Nat → PyTime → Option Int
  grid : Nat → Grid

/-- XyPlot._extract_data: dispatch on the grid kind of the input.  NoGrid
data is enumerated or split into columns, structured grids use their first
axis; any other grid type raises.  The numeric payload is abstracted. -/
def xyExtractData (g : Grid) (v : Int) : Except Err Int :=
  match g with
  | .noGrid _ => .ok v
  | .uniform _ | .esri _ | .rectilinear _ => .ok v
  | _ => .error (.valueError "Grid type not supported.")

/-- XyPlot._repaint: relim, autoscale, draw and flush.  With no figure the
axes attribute accesses raise. -/
def XyState.repaintXy (s : XyState) : Except Err XyState :=
  if s.figure then .ok { s with repaints := s.repaints + 1 }
  else .error .attributeError

/-- The `if self._lines is None` prologue of XyPlot._update_plot. -/
def XyState.createLines (s : XyState) : Except Err XyState :=
  if s.lines = Option.none then
    if s.figure then
      .ok { s with lines := some s.linesCreations,
                   linesCreations := s.linesCreations + 1 }
    else .error .attributeError
  else .ok s

/-- One iteration of the input loop of XyPlot._update_plot: for input `i`,
if `self.inputs[inp] == self._caller`, pull the value at `self._time`,
extract the x/y series for the input's grid and replace the cached line's
data in place. -/
def XyState.updatePlotStep (env : XyEnv) (i : Nat) (s : XyState) :
    Except Err XyState :=
  if s.caller = some i then
    match env.data i s.time with
    | Option.none => .error .finamNoDataError
    | some v => do
        let _ ← xyExtractData (env.grid i) v
        .ok { s with pulls := s.pulls + 1 }
  else .ok s

/-- XyPlot._update_plot. -/
def XyState.updatePlot (env : XyEnv) (s : XyState) : Except Err XyState := do
  let s1 ← s.createLines
  (List.range env.nInputs).foldlM
    (fun st i => XyState.updatePlotStep env i st) s1

/-- XyPlot._data_changed: on a changed time, repaint when the update
counter is at its interval and increment the counter; then record caller
and time and update the plot unconditionally (no status check). -/
def XyState.dataChanged (env : XyEnv) (caller : Nat) (time : PyTime)
    (s : XyState) : Except Err XyState := do
  let s1 ←
    if s.time ≠ time then do
      let sa ←
        if s.update_counter % s.update_interval = 0 then s.repaintXy
        else pure s
      pure { sa with update_counter := sa.update_counter + 1 }
    else pure s
  let s2 := { s1 with caller := some caller, time := time }
  s2.updatePlot env

/-- Host-driven calls on a `TimeSeriesPlot` instance over its lifetime:
status transitions performed by the finam scheduler, notify callbacks from
upstream outputs, and the component's own lifecycle methods. -/
inductive TsAction
  | hostStatus (st : ComponentStatus)
  | notify (caller : Nat) (time : PyTime)
  | connectCall
  | validateCall
  | finalizeCall
deriving Repr, DecidableEq

/-- One host-driven step on a `TimeSeriesPlot`. -/
def TsState.stepAction (env : TsEnv) (s : TsState) :
    TsAction → Except Err TsState
  | .hostStatus st => .ok { s with status := st }
  | .notify caller time => s.dataChanged env caller time
  | .connectCall => .ok s.connectFigure
  | .validateCall => s.validateComp env
  | .finalizeCall => s.finalizeComp

/-- A host-driven run of a `TimeSeriesPlot`. -/
def TsState.run (env : TsEnv) (acts : List TsAction) (s : TsState) :
    Except Err TsState :=
  acts.foldlM (fun st a => TsState.stepAction env st a) s

/-- Host-driven calls on an `ImagePlot` instance over its lifetime. -/
inductive ImgAction
  | hostStatus (st : ComponentStatus)
  | notify (time : PyTime)
  | updateCall
  | connectCall (inInfo : Option Grid)
  | finalizeCall
deriving Repr, DecidableEq

/-- One host-driven step on an `ImagePlot`. -/
def ImgState.stepAction (env : ImgEnv) (s : ImgState) :
    ImgAction → Except Err ImgState
  | .hostStatus st => .ok { s with status := st }
  | .notify time => s.dataChanged env time
  | .updateCall => s.update env
  | .connectCall inInfo => s.connect inInfo
  | .finalizeCall => s.finalizeComp

/-- A host-driven run of an `ImagePlot`. -/
def ImgState.run (env : ImgEnv) (acts : List ImgAction) (s : ImgState) :
    Except Err ImgState :=
  acts.foldlM (fun st a => ImgState.stepAction env st a) s

/-- A notify event: the calling input's index and the carried time. -/
structure NotifyEvent where
  caller : Nat
  time : PyTime
deriving Repr, DecidableEq

/-- A sequence of notify callbacks delivered to a `TimeSeriesPlot`. -/
def TsState.notifyAll (env : TsEnv) (evs : List NotifyEvent) (s : TsState) :
    Except Err TsState :=
  evs.foldlM (fun st e => TsState.dataChanged env e.caller e.time st) s

/-- Each event's time differs from the previously seen one (starting from
the given current time). -/
def freshTimes : PyTime → List NotifyEvent → Bool
  | _, [] => true
  | t, e :: rest => decide (e.time ≠ t) && freshTimes e.time rest

/-- The times of the events addressed to input `i`, in delivery order. -/
def timesOn (i : Nat) (evs : List NotifyEvent) : List PyTime :=
  (evs.filter (fun e => e.caller == i)).map (fun e => e.time)

/-- The number of cadence ticks, among `len` consecutive ticks starting at
counter value `c`, whose counter is divisible by the interval `interval`
(the ticks on which `should_repaint` returns true). -/
def cadenceCount (interval : Nat) : Nat → Nat → Nat
  | _, 0 => 0
  | c, len + 1 =>
      (if c % interval = 0 then 1 else 0) + cadenceCount interval (c + 1) len

@[simp] theorem except_bind_ok {ε α β : Type} (a : α) (f : α → Except ε β) :
    (Except.ok a >>= f) = f a := rfl

@[simp] theorem except_bind_error {ε α β : Type} (e : ε) (f : α → Except ε β) :
    ((Except.error e : Except ε α) >>= f) = Except.error e := rfl

@[simp] theorem except_pure_eq_ok {ε α : Type} (a : α) :
    (pure a : Except ε α) = Except.ok a := rfl

theorem ctPlotStructured_raises (a : Int × Int) (d : Int) (s : CtState) :
    CtState.plotStructured a d s = .error (.valueError "Unsupported axes") := by
  have h : a ≠ (0, 1) ∨ a ≠ (1, 0) := by
    by_cases h : a = (0, 1)
    · subst h; right; decide
    · exact Or.inl h
  unfold CtState.plotStructured
  rw [if_pos h]

/-- C10: ContourPlot._plot_structured raises `ValueError "Unsupported
axes"` for every axes argument, because the guard condition
`axes != (0, 1) or axes != (1, 0)` is true for every value of `axes`;
and plotting a structured (non-unstructured) grid through ContourPlot
always fails once a repaint is due — in this snapshot the render pass
raises even before `_plot_structured` is reached, on the
`self._info.grid.axes` misuse, so every due repaint errors. -/
theorem c10_plot_structured_always_raises :
    (∀ (a : Int × Int) (d : Int) (s : CtState),
        CtState.plotStructured a d s = .error (.valueError "Unsupported axes"))
  ∧ (∀ (env : CtEnv) (d : Int) (s : CtState),
        CtState.renderPass env d s = .error Err.attributeError) := by
  refine ⟨ctPlotStructured_raises, ?_⟩
  intro env d s
  unfold CtState.renderPass
  cases s.grid <;> rfl

def ctStructuredW : CtState :=
  { status := .updated
    update_interval := 1
    update_counter := 0
    time := PyTime.none
    grid := some (Grid.rectilinear 2)
    figure := true
    contours := Option.none
    contoursCreations := 0
    triangulate := true
    fill := true
    triangulationSet := false
    repaints := 0
    pulls := 0 }

/-- Witness for C10: at the concrete axes value (1, 1) the structured
dispatch fails with the "Unsupported axes" ValueError, and a concrete due
repaint pass of a ContourPlot wired to a 2-D rectilinear grid fails. -/
theorem c10_plot_structured_always_raises_witness :
    CtState.plotStructured (1, 1) 0 ctStructuredW
      = .error (.valueError "Unsupported axes")
  ∧ CtState.renderPass { data := fun _ => some 0 } 0 ctStructuredW
      = .error Err.attributeError :=
  ⟨c10_plot_structured_always_raises.1 (1, 1) 0 ctStructuredW,
   c10_plot_structured_always_raises.2 { data := fun _ => some 0 } 0
     ctStructuredW⟩

/-- C8: shape mismatch is fatal at connect time: once the input info has
resolved, ImagePlot._connect succeeds exactly when the grid is a 2-D
UniformGrid (EsriGrid included) and ColorMeshPlot._connect succeeds
exactly when it is a 2-D RectilinearGrid (UniformGrid and EsriGrid
included); on success the state only records the resolved info — in
particular no data is pulled — and on failure a ValueError is raised. -/
theorem c8_connect_shape_check (g : Grid) (s : ImgState) (sc : CmState) :
    ((∃ s1, ImgState.connect (some g) s = .ok s1)
        ↔ (g.isUniformGrid = true ∧ g.dim = 2))
  ∧ (∀ s1, ImgState.connect (some g) s = .ok s1 → s1 = { s with info := some g })
  ∧ (¬(g.isUniformGrid = true ∧ g.dim = 2) →
        ∃ m, ImgState.connect (some g) s = .error (.valueError m))
  ∧ ((∃ s1, CmState.connect (some g) sc = .ok s1)
        ↔ (g.isRectilinearGrid = true ∧ g.dim = 2))
  ∧ (∀ s1, CmState.connect (some g) sc = .ok s1 → s1 = { sc with info := some g })
  ∧ (¬(g.isRectilinearGrid = true ∧ g.dim = 2) →
        ∃ m, CmState.connect (some g) sc = .error (.valueError m)) := by
  cases g <;>
    simp [ImgState.connect, CmState.connect, ImgState.connectCheck,
      CmState.connectCheck, Grid.isUniformGrid, Grid.isRectilinearGrid,
      Grid.dim] <;>
    first
      | rename_i d; by_cases hd : d = 2 <;> simp [hd]
      | skip

/-- Witness for C8: a 2-D UniformGrid passes the ImagePlot connect check
and a 2-D RectilinearGrid passes the ColorMeshPlot connect check, while a
3-D UniformGrid fails the ImagePlot check. -/
theorem c8_connect_shape_check_witness :
    (∃ s1, ImgState.connect (some (Grid.uniform 2)) ImgState.fresh = .ok s1)
  ∧ (∃ s1, CmState.connect (some (Grid.rectilinear 2))
        { info := Option.none, pulls := 0 } = .ok s1)
  ∧ (∃ m, ImgState.connect (some (Grid.uniform 3)) ImgState.fresh
        = .error (.valueError m)) := by
  refine ⟨?_, ?_, ?_⟩
  · exact (c8_connect_shape_check (Grid.uniform 2) ImgState.fresh
      { info := Option.none, pulls := 0 }).1.mpr (by exact ⟨rfl, rfl⟩)
  · exact (c8_connect_shape_check (Grid.rectilinear 2) ImgState.fresh
      { info := Option.none, pulls := 0 }).2.2.2.1.mpr (by exact ⟨rfl, rfl⟩)
  · exact (c8_connect_shape_check (Grid.uniform 3) ImgState.fresh
      { info := Option.none, pulls := 0 }).2.2.1 (by simp [Grid.dim])

/-- C7 (amended): ImagePlot and ContourPlot reject a notify whose time is
of the wrong kind (neither None nor a datetime) immediately, raising the
ValueError before the time is recorded or any data is processed. -/
theorem c7_wrong_time_kind_raises (envI : ImgEnv) (envC : CtEnv) (k : Nat)
    (si : ImgState) (sc : CtState) :
    ImgState.dataChanged envI (PyTime.wrongKind k) si
        = .error (.valueError "Time must be of type datetime")
  ∧ CtState.dataChanged envC (PyTime.wrongKind k) sc
        = .error (.valueError "Time must be of type datetime") := by
  constructor <;>
    simp [ImgState.dataChanged, CtState.dataChanged, PyTime.isDatetime]

def tsEnvW : TsEnv :=
  { nInputs := 1, data := fun _ _ => some 0 }

def tsConnectedW : TsState :=
  { TsState.fresh 1 1 with status := .connected, figure := true }

/-- Counterexample to C7 as stated: TimeSeriesPlot._data_changed performs
no time-kind check.  A notify carrying a wrong-kind time (neither None nor
a datetime) returns without error and the wrong-kind value is cached as
the current time. -/
theorem c7_counterexample :
    TsState.dataChanged tsEnvW 0 (PyTime.wrongKind 0) tsConnectedW
      = .ok { tsConnectedW with
              update_counter := 1, repaints := 1,
              caller := some 0, time := PyTime.wrongKind 0 } := by
  rfl

def imgEnvNoData : ImgEnv :=
  { data := fun _ => Option.none }

def imgValidatedW : ImgState :=
  { ImgState.fresh with status := .validated, info := some (Grid.uniform 2) }

/-- Counterexample to C2 as stated: an ImagePlot in status VALIDATED
(directly after validate) receiving a notify while no upstream data was
ever produced swallows the FinamNoDataError and returns without error. -/
theorem c2_counterexample :
    ImgState.dataChanged imgEnvNoData (PyTime.datetime 0) imgValidatedW
      = .ok { imgValidatedW with time := PyTime.datetime 0 } := by
  rfl

/-- C2 (amended): a notify with no upstream data ever produced raises the
FinamNoDataError out of the call exactly when the status is neither
VALIDATED nor INITIALIZED (so in UPDATED, CONNECTING, CONNECTED, ...); in
status VALIDATED the error is swallowed. -/
theorem c2_nodata_raises_outside_validated (env : ImgEnv) (t : PyTime)
    (s : ImgState)
    (h1 : s.status ≠ .validated) (h2 : s.status ≠ .initialized)
    (hkind : t = PyTime.none ∨ t.isDatetime = true)
    (hnd : env.data t = Option.none) :
    ImgState.dataChanged env t s = .error Err.finamNoDataError := by
  have hkc : ¬(t ≠ PyTime.none ∧ t.isDatetime = false) := by
    rcases hkind with h | h <;> simp [h]
  unfold ImgState.dataChanged
  rw [if_neg hkc]
  by_cases hs : ({ s with time := t } : ImgState).status = .updated ∨
      ({ s with time := t } : ImgState).status = .validated
  · rw [if_pos hs]
    unfold ImgState.update ImgState.plot
    simp only [hnd]
    simp [h1, h2]
  · rw [if_neg hs]
    unfold ImgState.plot
    simp only [hnd]
    simp [h1, h2]

def imgUpdatedW : ImgState :=
  { ImgState.fresh with status := .updated, info := some (Grid.uniform 2) }

/-- Witness for the amended C2: an ImagePlot in status UPDATED with no
data ever produced raises out of the notify call. -/
theorem c2_nodata_raises_outside_validated_witness :
    ImgState.dataChanged imgEnvNoData (PyTime.datetime 1) imgUpdatedW
      = .error Err.finamNoDataError :=
  c2_nodata_raises_outside_validated imgEnvNoData (PyTime.datetime 1)
    imgUpdatedW (by decide) (by decide) (Or.inr rfl) rfl

def imgConnectedW : ImgState :=
  { ImgState.fresh with status := .connected, info := some (Grid.uniform 2) }

/-- Counterexample to C3 as stated: an ImagePlot in status CONNECTED
(before validate) receiving a notify while no data was ever produced does
raise: the FinamNoDataError propagates out of the notify call, because
ImagePlot._plot swallows it only in statuses VALIDATED and INITIALIZED. -/
theorem c3_counterexample :
    ImgState.dataChanged imgEnvNoData (PyTime.datetime 0) imgConnectedW
      = .error Err.finamNoDataError := by
  rfl

/-- C3 (amended): with no data ever produced, a notify does not raise and
leaves the drawable cache unset (a) for ImagePlot in status INITIALIZED,
where the FinamNoDataError is swallowed, and (b) for TimeSeriesPlot in
status CONNECTING or CONNECTED (its figure exists from connect on), which
performs no pull before validation; in CONNECTING/CONNECTED an ImagePlot
instead propagates the error (see the counterexample). -/
theorem c3_nodata_before_validate (env : ImgEnv) (envT : TsEnv) (t : PyTime)
    (j : Nat) (s : ImgState) (st : TsState)
    (hkind : t = PyTime.none ∨ t.isDatetime = true)
    (hnd : env.data t = Option.none)
    (hs : s.status = .initialized)
    (hts : st.status = .connecting ∨ st.status = .connected)
    (hfig : st.figure = true) :
    ImgState.dataChanged env t s = .ok { s with time := t }
  ∧ ∃ st1, TsState.dataChanged envT j t st = .ok st1
      ∧ st1.lines = st.lines ∧ st1.pulls = st.pulls := by
  have hkc : ¬(t ≠ PyTime.none ∧ t.isDatetime = false) := by
    rcases hkind with h | h <;> simp [h]
  constructor
  · unfold ImgState.dataChanged
    rw [if_neg hkc]
    have hns : ¬(({ s with time := t } : ImgState).status = .updated ∨
        ({ s with time := t } : ImgState).status = .validated) := by
      simp [hs]
    rw [if_neg hns]
    unfold ImgState.plot
    simp only [hnd]
    simp [hs]
  · have hnts : ¬(({ st with caller := some j, time := t } : TsState).status
          = .updated ∨
        ({ st with caller := some j, time := t } : TsState).status
          = .validated) := by
      rcases hts with h | h <;> simp [h]
    by_cases ht : st.time = t
    · refine ⟨{ st with caller := some j, time := t }, ?_, rfl, rfl⟩
      unfold TsState.dataChanged
      simp only [ht, ne_eq, not_true_eq_false, if_false, Bool.false_eq_true,
        ite_false, except_pure_eq_ok, except_bind_ok]
      rw [if_neg hnts]
    · by_cases hcnt : st.update_counter % st.update_interval = 0
      · refine ⟨{ st with
          update_counter := st.update_counter + 1,
          repaints := st.repaints + 1, caller := some j, time := t }, ?_, rfl, rfl⟩
        unfold TsState.dataChanged
        simp only [ne_eq, ht, not_false_iff, if_true, shouldRepaint]
        simp only [hcnt, beq_self_eq_true, ite_true]
        simp only [TsState.repaint, hfig, if_true, except_pure_eq_ok,
          except_bind_ok]
        rw [if_neg hnts]
      · refine ⟨{ st with
          update_counter := st.update_counter + 1,
          caller := some j, time := t }, ?_, rfl, rfl⟩
        unfold TsState.dataChanged
        simp only [ne_eq, ht, not_false_iff, if_true, shouldRepaint]
        have hb : (st.update_counter % st.update_interval == 0) = false := by
          simpa using hcnt
        simp only [hb, if_false, Bool.false_eq_true, ite_false,
          except_pure_eq_ok, except_bind_ok]
        rw [if_neg hnts]

def tsEnvNoData : TsEnv :=
  { nInputs := 2, data := fun _ _ => Option.none }

def imgInitializedW : ImgState :=
  { ImgState.fresh with status := .initialized }

def tsConnectingW : TsState :=
  { TsState.fresh 2 1 with status := .connecting, figure := true }

/-- Witness for the amended C3 at concrete inputs. -/
theorem c3_nodata_before_validate_witness :
    ImgState.dataChanged imgEnvNoData (PyTime.datetime 2) imgInitializedW
      = .ok { imgInitializedW with time := PyTime.datetime 2 }
  ∧ ∃ st1, TsState.dataChanged tsEnvNoData 0 (PyTime.datetime 2) tsConnectingW
      = .ok st1 ∧ st1.lines = tsConnectingW.lines
      ∧ st1.pulls = tsConnectingW.pulls :=
  c3_nodata_before_validate imgEnvNoData tsEnvNoData (PyTime.datetime 2) 0
    imgInitializedW tsConnectingW (Or.inr rfl) rfl rfl (Or.inl rfl) rfl

/-- Counterexample to C6 as stated: TimeSeriesPlot.finalize called
directly after initialize raises, because TimeSeriesPlot._finalize calls
`self.repaint(relim=True)` while `self.figure`/`self.axes` were never
created (they are created in `_connect`). -/
theorem c6_counterexample :
    ((TsState.fresh 2 1).initComp).finalizeComp = .error Err.attributeError := by
  rfl

/-- C6 (amended): finalize directly after initialize completes without
error for components whose finalize does no repaint — ImagePlot
(`_finalize` is `pass`) and ContourPlot (PlotBase._finalize is `pass`) —
while TimeSeriesPlot._finalize completes only once the figure exists
(from connect on), in which case it performs exactly one repaint. -/
theorem c6_finalize_after_init (sc : CtState) (s : TsState)
    (hfig : s.figure = true) :
    (ImgState.fresh.initComp).finalizeComp = .ok ImgState.fresh.initComp
  ∧ sc.finalizeComp = .ok sc
  ∧ s.finalizeComp = .ok { s with repaints := s.repaints + 1 } := by
  refine ⟨rfl, rfl, ?_⟩
  unfold TsState.finalizeComp TsState.repaint
  rw [if_pos hfig]

/-- Witness for the amended C6: a TimeSeriesPlot whose figure exists
finalizes without error. -/
theorem c6_finalize_after_init_witness :
    (ImgState.fresh.initComp).finalizeComp = .ok ImgState.fresh.initComp
  ∧ ctStructuredW.finalizeComp = .ok ctStructuredW
  ∧ tsConnectingW.finalizeComp
      = .ok { tsConnectingW with repaints := tsConnectingW.repaints + 1 } :=
  c6_finalize_after_init ctStructuredW tsConnectingW rfl

theorem tsUpdatePlotStep_frame (env : TsEnv) (i : Nat) (s s1 : TsState)
    (h : TsState.updatePlotStep env i s = .ok s1) :
    s1.update_counter = s.update_counter ∧ s1.repaints = s.repaints
    ∧ s1.status = s.status ∧ s1.figure = s.figure
    ∧ s1.time = s.time ∧ s1.caller = s.caller
    ∧ s1.lines = s.lines ∧ s1.linesCreations = s.linesCreations := by
  unfold TsState.updatePlotStep at h
  by_cases hc : s.caller = Option.none ∨ s.caller = some i
  · rw [if_pos hc] at h
    cases hd : env.data i s.time <;> rw [hd] at h
    · cases h
    · cases h
      exact ⟨rfl, rfl, rfl, rfl, rfl, rfl, rfl, rfl⟩
  · rw [if_neg hc] at h
    cases h
    exact ⟨rfl, rfl, rfl, rfl, rfl, rfl, rfl, rfl⟩

theorem tsFold_frame (env : TsEnv) (l : List Nat) :
    ∀ (s s1 : TsState),
      l.foldlM (fun st i => TsState.updatePlotStep env i st) s = .ok s1 →
      s1.update_counter = s.update_counter ∧ s1.repaints = s.repaints
      ∧ s1.status = s.status ∧ s1.figure = s.figure
      ∧ s1.time = s.time ∧ s1.caller = s.caller := by
  induction l with
  | nil =>
      intro s s1 h
      simp only [List.foldlM_nil, except_pure_eq_ok] at h
      cases h
      exact ⟨rfl, rfl, rfl, rfl, rfl, rfl⟩
  | cons a l ih =>
      intro s s1 h
      rw [List.foldlM_cons] at h
      cases hstep : TsState.updatePlotStep env a s with
      | error e => rw [hstep] at h; simp at h
      | ok s2 =>
          rw [hstep, except_bind_ok] at h
          obtain ⟨h1, h2, h3, h4, h5, h6, _, _⟩ :=
            tsUpdatePlotStep_frame env a s s2 hstep
          obtain ⟨g1, g2, g3, g4, g5, g6⟩ := ih s2 s1 h
          exact ⟨g1.trans h1, g2.trans h2, g3.trans h3, g4.trans h4,
            g5.trans h5, g6.trans h6⟩

theorem tsUpdatePlot_counter (env : TsEnv) (s s1 : TsState)
    (h : TsState.updatePlot env s = .ok s1) :
    s1.update_counter = s.update_counter := by
  unfold TsState.updatePlot at h
  cases hcl : s.createLines with
  | error e => rw [hcl] at h; simp at h
  | ok s2 =>
      rw [hcl, except_bind_ok] at h
      have h2 : s2.update_counter = s.update_counter := by
        unfold TsState.createLines at hcl
        by_cases hl : s.lines = Option.none
        · rw [if_pos hl] at hcl
          by_cases hf : s.figure = true
          · rw [if_pos hf] at hcl; cases hcl; rfl
          · rw [if_neg hf] at hcl; cases hcl
        · rw [if_neg hl] at hcl; cases hcl; rfl
      exact (tsFold_frame env (List.range env.nInputs) s2 s1 h).1.trans h2

theorem xyUpdatePlotStep_counter (env : XyEnv) (i : Nat) (s s1 : XyState)
    (h : XyState.updatePlotStep env i s = .ok s1) :
    s1.update_counter = s.update_counter := by
  unfold XyState.updatePlotStep at h
  by_cases hc : s.caller = some i
  · rw [if_pos hc] at h
    cases hd : env.data i s.time <;> rw [hd] at h <;> dsimp only at h
    · cases h
    · rename_i v
      cases he : xyExtractData (env.grid i) v <;> rw [he] at h
      · rw [except_bind_error] at h
        cases h
      · rw [except_bind_ok] at h
        cases h
        rfl
  · rw [if_neg hc] at h
    cases h
    rfl

theorem xyFold_counter (env : XyEnv) (l : List Nat) :
    ∀ (s s1 : XyState),
      l.foldlM (fun st i => XyState.updatePlotStep env i st) s = .ok s1 →
      s1.update_counter = s.update_counter := by
  induction l with
  | nil =>
      intro s s1 h
      simp only [List.foldlM_nil, except_pure_eq_ok] at h
      cases h
      rfl
  | cons a l ih =>
      intro s s1 h
      rw [List.foldlM_cons] at h
      cases hstep : XyState.updatePlotStep env a s with
      | error e => rw [hstep] at h; simp at h
      | ok s2 =>
          rw [hstep, except_bind_ok] at h
          exact (ih s2 s1 h).trans (xyUpdatePlotStep_counter env a s s2 hstep)

theorem xyUpdatePlot_counter (env : XyEnv) (s s1 : XyState)
    (h : XyState.updatePlot env s = .ok s1) :
    s1.update_counter = s.update_counter := by
  unfold XyState.updatePlot at h
  cases hcl : s.createLines with
  | error e => rw [hcl] at h; simp at h
  | ok s2 =>
      rw [hcl, except_bind_ok] at h
      have h2 : s2.update_counter = s.update_counter := by
        unfold XyState.createLines at hcl
        by_cases hl : s.lines = Option.none
        · rw [if_pos hl] at hcl
          by_cases hf : s.figure = true
          · rw [if_pos hf] at hcl; cases hcl; rfl
          · rw [if_neg hf] at hcl; cases hcl
        · rw [if_neg hl] at hcl; cases hcl; rfl
      exact (xyFold_counter env (List.range env.nInputs) s2 s1 h).trans h2

/-- C4 (amended): for TimeSeriesPlot and XyPlot, a notify that completes
normally increments the cadence counter exactly when the carried time
differs from the most recently seen time, and leaves the counter
unchanged when the time is unchanged.  (ContourPlot, by contrast,
advances its counter on every notify whose data pull succeeds; see the
counterexample.) -/
theorem c4_cadence_tick_idempotent :
    (∀ (env : TsEnv) (j : Nat) (t : PyTime) (s s1 : TsState),
        TsState.dataChanged env j t s = .ok s1 →
        s1.update_counter =
          if s.time = t then s.update_counter else s.update_counter + 1)
  ∧ (∀ (env : XyEnv) (j : Nat) (t : PyTime) (s s1 : XyState),
        XyState.dataChanged env j t s = .ok s1 →
        s1.update_counter =
          if s.time = t then s.update_counter else s.update_counter + 1) := by
  constructor
  · intro env j t s s1 h
    unfold TsState.dataChanged at h
    split at h
    · rename_i hne
      rw [if_neg hne]
      dsimp only [shouldRepaint] at h
      split at h
      · unfold TsState.repaint at h
        split at h
        · simp only [except_bind_ok] at h
          split at h
          · simpa using tsUpdatePlot_counter env _ s1 h
          · obtain rfl := Except.ok.inj h
            rfl
        · simp at h
      · simp only [except_pure_eq_ok, except_bind_ok] at h
        split at h
        · simpa using tsUpdatePlot_counter env _ s1 h
        · obtain rfl := Except.ok.inj h
          rfl
    · rename_i hnn
      rw [if_pos (not_not.mp hnn)]
      simp only [except_pure_eq_ok, except_bind_ok] at h
      split at h
      · simpa using tsUpdatePlot_counter env _ s1 h
      · obtain rfl := Except.ok.inj h
        rfl
  · intro env j t s s1 h
    unfold XyState.dataChanged at h
    split at h
    · rename_i hne
      rw [if_neg hne]
      split at h
      · unfold XyState.repaintXy at h
        split at h
        · simp only [except_bind_ok, except_pure_eq_ok] at h
          simpa using xyUpdatePlot_counter env _ s1 h
        · simp at h
      · simp only [except_pure_eq_ok, except_bind_ok] at h
        simpa using xyUpdatePlot_counter env _ s1 h
    · rename_i hnn
      rw [if_pos (not_not.mp hnn)]
      simp only [except_pure_eq_ok, except_bind_ok] at h
      simpa using xyUpdatePlot_counter env _ s1 h

def xyEnvW : XyEnv :=
  { nInputs := 1, data := fun _ _ => some 0, grid := fun _ => Grid.noGrid 1 }

def xyW : XyState :=
  { status := .connected
    update_interval := 1
    update_counter := 0
    time := PyTime.none
    caller := Option.none
    lines := Option.none
    linesCreations := 0
    figure := true
    repaints := 0
    pulls := 0 }

/-- Witness for the amended C4: concrete notify calls on a TimeSeriesPlot
and an XyPlot with a changed time increment the counter by exactly one. -/
theorem c4_cadence_tick_idempotent_witness :
    ({ tsConnectedW with
       update_counter := 1, repaints := 1,
       caller := some 0, time := PyTime.datetime 5 } : TsState).update_counter
      = (if tsConnectedW.time = PyTime.datetime 5 then
          tsConnectedW.update_counter else tsConnectedW.update_counter + 1)
  ∧ ({ xyW with
       update_counter := 1, repaints := 1, caller := some 0,
       time := PyTime.datetime 5, lines := some 0, linesCreations := 1,
       pulls := 1 } : XyState).update_counter
      = (if xyW.time = PyTime.datetime 5 then
          xyW.update_counter else xyW.update_counter + 1) :=
  ⟨c4_cadence_tick_idempotent.1 tsEnvW 0 (PyTime.datetime 5) tsConnectedW _ rfl,
   c4_cadence_tick_idempotent.2 xyEnvW 0 (PyTime.datetime 5) xyW _ rfl⟩

def ctEnvSame : CtEnv :=
  { data := fun _ => some 0 }

def ctSameTimeW : CtState :=
  { status := .updated
    update_interval := 3
    update_counter := 1
    time := PyTime.datetime 0
    grid := some (Grid.unstructured true true)
    figure := true
    contours := some 0
    contoursCreations := 1
    triangulate := true
    fill := true
    triangulationSet := true
    repaints := 1
    pulls := 0 }

/-- Counterexample to C4 as stated: a ContourPlot receiving two successive
notify calls that carry the same logical time as the previously seen one
(all three times equal) advances its cadence counter on each of them —
from 1 to 3 — because ContourPlot._plot calls `should_repaint` on every
notify whose pull succeeded, without comparing times. -/
theorem c4_counterexample :
    (CtState.dataChanged ctEnvSame (PyTime.datetime 0) ctSameTimeW).bind
        (fun s1 => CtState.dataChanged ctEnvSame (PyTime.datetime 0) s1)
      = .ok { ctSameTimeW with update_counter := 3, pulls := 2 }
  ∧ ({ ctSameTimeW with update_counter := 3, pulls := 2 } : CtState).update_counter
      = ctSameTimeW.update_counter + 2 :=
  ⟨rfl, rfl⟩

theorem tsStep_skip (env : TsEnv) (i j : Nat) (s : TsState)
    (hne : i ≠ j) (hc : s.caller = some j) :
    TsState.updatePlotStep env i s = .ok s := by
  unfold TsState.updatePlotStep
  rw [if_neg]
  intro hor
  rcases hor with h | h
  · rw [hc] at h
    cases h
  · rw [hc] at h
    exact hne (Option.some.inj h).symm

theorem tsStep_hit (env : TsEnv) (j : Nat) (v : Int) (s : TsState)
    (hc : s.caller = some j) (hv : env.data j s.time = some v) :
    TsState.updatePlotStep env j s
      = .ok { s with pulls := s.pulls + 1,
                     x := s.x.set j (s.x.getD j [] ++ [s.time]),
                     data := s.data.set j (s.data.getD j [] ++ [v]) } := by
  unfold TsState.updatePlotStep
  rw [if_pos (Or.inr hc), hv]

theorem tsFold_skip (env : TsEnv) (j : Nat) :
    ∀ (l : List Nat) (s : TsState), (∀ i ∈ l, i ≠ j) → s.caller = some j →
      l.foldlM (fun st i => TsState.updatePlotStep env i st) s = .ok s := by
  intro l
  induction l with
  | nil => intro s _ _; simp
  | cons a l ih =>
      intro s hall hc
      rw [List.foldlM_cons, tsStep_skip env a j s (hall a (by simp)) hc,
        except_bind_ok]
      exact ih s (fun i hi => hall i (by simp [hi])) hc

theorem tsFold_range_hit (env : TsEnv) (j : Nat) (v : Int) :
    ∀ (n : Nat) (s : TsState), j < n → s.caller = some j →
      env.data j s.time = some v →
      (List.range n).foldlM (fun st i => TsState.updatePlotStep env i st) s
        = .ok { s with pulls := s.pulls + 1,
                       x := s.x.set j (s.x.getD j [] ++ [s.time]),
                       data := s.data.set j (s.data.getD j [] ++ [v]) } := by
  intro n
  induction n with
  | zero => intro s hj; omega
  | succ m ih =>
      intro s hj hc hv
      rw [List.range_succ, List.foldlM_append]
      by_cases hjm : j < m
      · rw [ih s hjm hc hv, except_bind_ok, List.foldlM_cons,
          tsStep_skip env m j _ (by omega) (by simpa using hc), except_bind_ok,
          List.foldlM_nil]
        rfl
      · have hje : j = m := by omega
        subst hje
        rw [tsFold_skip env j (List.range j) s (fun i hi => by
            have := List.mem_range.mp hi
            omega) hc, except_bind_ok, List.foldlM_cons,
          tsStep_hit env j v s hc hv, except_bind_ok, List.foldlM_nil]
        rfl

theorem ts_notify_ok (env : TsEnv) (j : Nat) (t : PyTime) (s : TsState)
    (v : Int)
    (hst : s.status = .updated) (hfig : s.figure = true)
    (hlines : s.lines ≠ Option.none) (hj : j < env.nInputs)
    (hv : env.data j t = some v) :
    TsState.dataChanged env j t s
      = .ok { s with
              update_counter := if s.time = t then s.update_counter
                else s.update_counter + 1,
              repaints := if s.time = t then s.repaints
                else s.repaints +
                  (if s.update_counter % s.update_interval = 0 then 1 else 0),
              caller := some j, time := t, pulls := s.pulls + 1,
              x := s.x.set j (s.x.getD j [] ++ [t]),
              data := s.data.set j (s.data.getD j [] ++ [v]) } := by
  have hupd : ∀ (s2 : TsState), s2.status = ComponentStatus.updated ∨
      s2.status = ComponentStatus.validated → s2.caller = some j →
      s2.time = t → s2.lines ≠ Option.none →
      TsState.updatePlot env s2
        = .ok { s2 with pulls := s2.pulls + 1,
                        x := s2.x.set j (s2.x.getD j [] ++ [t]),
                        data := s2.data.set j (s2.data.getD j [] ++ [v]) } := by
    intro s2 _ hc ht hl
    unfold TsState.updatePlot TsState.createLines
    rw [if_neg hl, except_bind_ok,
      tsFold_range_hit env j v env.nInputs s2 hj hc (by rw [ht]; exact hv), ht]
  unfold TsState.dataChanged
  by_cases ht : s.time = t
  · simp only [ht, ne_eq, not_true_eq_false, if_false, Bool.false_eq_true,
      ite_false, ite_true, if_pos, except_pure_eq_ok, except_bind_ok]
    rw [if_pos (Or.inl (by simpa using hst))]
    rw [hupd { s with caller := some j, time := t }
      (Or.inl (by simpa using hst)) rfl rfl (by simpa using hlines)]
  · simp only [ne_eq, ht, not_false_iff, if_true, ite_false, shouldRepaint]
    by_cases hb : s.update_counter % s.update_interval = 0
    · simp only [hb, beq_self_eq_true, ite_true, TsState.repaint, hfig,
        if_true, except_bind_ok, if_pos]
      rw [if_pos (Or.inl (by simpa using hst))]
      rw [hupd { s with
          update_counter := s.update_counter + 1,
          repaints := s.repaints + 1, caller := some j, time := t,
          figure := true }
        (Or.inl (by simpa using hst)) rfl rfl (by simpa using hlines)]
    · have hb2 : (s.update_counter % s.update_interval == 0) = false := by
        simpa using hb
      simp only [hb2, if_false, Bool.false_eq_true, ite_false,
        except_pure_eq_ok, except_bind_ok]
      rw [if_pos (Or.inl (by simpa using hst))]
      rw [hupd { s with
          update_counter := s.update_counter + 1,
          caller := some j, time := t }
        (Or.inl (by simpa using hst)) rfl rfl (by simpa using hlines)]
      simp [hb]

theorem ts_run_notifies (env : TsEnv)
    (htotal : ∀ i t, (env.data i t).isSome) :
    ∀ (evs : List NotifyEvent) (s : TsState),
      s.status = .updated → s.figure = true → s.lines ≠ Option.none →
      (∀ e ∈ evs, e.caller < env.nInputs) →
      freshTimes s.time evs = true →
      ∃ s1, TsState.notifyAll env evs s = .ok s1
        ∧ s1.repaints = s.repaints +
            cadenceCount s.update_interval s.update_counter evs.length
        ∧ s1.pulls = s.pulls + evs.length
        ∧ s1.update_counter = s.update_counter + evs.length := by
  intro evs
  induction evs with
  | nil =>
      intro s h1 h2 h3 h4 h5
      exact ⟨s, by simp [TsState.notifyAll], by simp [cadenceCount], by simp,
        by simp⟩
  | cons e evs ih =>
      intro s h1 h2 h3 h4 h5
      obtain ⟨v, hv⟩ := Option.isSome_iff_exists.mp (htotal e.caller e.time)
      unfold freshTimes at h5
      rw [Bool.and_eq_true, decide_eq_true_iff] at h5
      obtain ⟨hfresh1, hfresh2⟩ := h5
      have hne : ¬(s.time = e.time) := fun hh => hfresh1 hh.symm
      have hcall : e.caller < env.nInputs := h4 e (by simp)
      have hstep := ts_notify_ok env e.caller e.time s v h1 h2 h3 hcall hv
      rw [if_neg hne, if_neg hne] at hstep
      unfold TsState.notifyAll
      rw [List.foldlM_cons, hstep, except_bind_ok]
      obtain ⟨s1, hrun, hrep, hpull, hcnt⟩ := ih
        { s with update_counter := s.update_counter + 1,
                 repaints := s.repaints +
                   (if s.update_counter % s.update_interval = 0 then 1 else 0),
                 caller := some e.caller, time := e.time,
                 pulls := s.pulls + 1,
                 x := s.x.set e.caller (s.x.getD e.caller [] ++ [e.time]),
                 data := s.data.set e.caller
                   (s.data.getD e.caller [] ++ [v]) }
        (by simpa using h1) (by simpa using h2) (by simpa using h3)
        (fun e2 he2 => h4 e2 (by simp [he2])) (by simpa using hfresh2)
      refine ⟨s1, hrun, ?_, ?_, ?_⟩
      · rw [hrep]
        simp only [List.length_cons, cadenceCount]
        by_cases hb : s.update_counter % s.update_interval = 0 <;>
          simp [hb] <;> omega
      · rw [hpull]
        simp only [List.length_cons]
        omega
      · rw [hcnt]
        simp only [List.length_cons]
        omega

theorem cadenceCount_add (interval : Nat) :
    ∀ (a c b : Nat), cadenceCount interval c (a + b)
      = cadenceCount interval c a + cadenceCount interval (c + a) b := by
  intro a
  induction a with
  | zero => intro c b; simp [cadenceCount]
  | succ m ih =>
      intro c b
      have h1 : m + 1 + b = (m + b) + 1 := by omega
      simp only [cadenceCount, h1]
      rw [ih (c + 1) b, show c + 1 + m = c + (m + 1) from by omega]
      ring

theorem cadenceCount_zeros (interval : Nat) :
    ∀ (len c : Nat), 0 < c → c + len ≤ interval →
      cadenceCount interval c len = 0 := by
  intro len
  induction len with
  | zero => intro c _ _; rfl
  | succ m ih =>
      intro c hc hle
      have hmod : c % interval = c := Nat.mod_eq_of_lt (by omega)
      simp only [cadenceCount, hmod]
      rw [if_neg (by omega), ih (c + 1) (by omega) (by omega)]

theorem cadenceCount_shift (interval : Nat) :
    ∀ (len c : Nat), cadenceCount interval (c + interval) len
      = cadenceCount interval c len := by
  intro len
  induction len with
  | zero => intro c; rfl
  | succ m ih =>
      intro c
      simp only [cadenceCount, Nat.add_mod_right]
      rw [show c + interval + 1 = (c + 1) + interval from by omega, ih (c + 1)]

theorem cadenceCount_mul (interval : Nat) (h : 1 ≤ interval) :
    ∀ (k : Nat), cadenceCount interval 0 (k * interval) = k := by
  have hblock : cadenceCount interval 0 interval = 1 := by
    cases interval with
    | zero => omega
    | succ m =>
        simp only [cadenceCount, Nat.zero_mod, if_pos rfl]
        cases m with
        | zero => rfl
        | succ p =>
            rw [cadenceCount_zeros (p + 2) (p + 1) 1 (by omega) (by omega)]
            simp
  intro k
  induction k with
  | zero => simp [cadenceCount]
  | succ n ih =>
      rw [show (n + 1) * interval = interval + n * interval from by ring,
        cadenceCount_add interval interval 0 (n * interval), hblock,
        cadenceCount_shift, ih]
      omega

/-- A sequence of notify callbacks delivered to an `XyPlot`. -/
def XyState.notifyAll (env : XyEnv) (evs : List NotifyEvent) (s : XyState) :
    Except Err XyState :=
  evs.foldlM (fun st e => XyState.dataChanged env e.caller e.time st) s

theorem xyStep_skip (env : XyEnv) (i j : Nat) (s : XyState)
    (hne : i ≠ j) (hc : s.caller = some j) :
    XyState.updatePlotStep env i s = .ok s := by
  unfold XyState.updatePlotStep
  rw [if_neg]
  intro h
  rw [hc] at h
  exact hne (Option.some.inj h).symm

theorem xyStep_hit (env : XyEnv) (j : Nat) (v : Int) (s : XyState)
    (hc : s.caller = some j) (hv : env.data j s.time = some v)
    (hex : xyExtractData (env.grid j) v = .ok v) :
    XyState.updatePlotStep env j s = .ok { s with pulls := s.pulls + 1 } := by
  unfold XyState.updatePlotStep
  rw [if_pos hc, hv]
  dsimp only
  rw [hex, except_bind_ok]

theorem xyFold_skip (env : XyEnv) (j : Nat) :
    ∀ (l : List Nat) (s : XyState), (∀ i ∈ l, i ≠ j) → s.caller = some j →
      l.foldlM (fun st i => XyState.updatePlotStep env i st) s = .ok s := by
  intro l
  induction l with
  | nil => intro s _ _; simp
  | cons a l ih =>
      intro s hall hc
      rw [List.foldlM_cons, xyStep_skip env a j s (hall a (by simp)) hc,
        except_bind_ok]
      exact ih s (fun i hi => hall i (by simp [hi])) hc

theorem xyFold_range_hit (env : XyEnv) (j : Nat) (v : Int) :
    ∀ (n : Nat) (s : XyState), j < n → s.caller = some j →
      env.data j s.time = some v → xyExtractData (env.grid j) v = .ok v →
      (List.range n).foldlM (fun st i => XyState.updatePlotStep env i st) s
        = .ok { s with pulls := s.pulls + 1 } := by
  intro n
  induction n with
  | zero => intro s hj; omega
  | succ m ih =>
      intro s hj hc hv hex
      rw [List.range_succ, List.foldlM_append]
      by_cases hjm : j < m
      · rw [ih s hjm hc hv hex, except_bind_ok, List.foldlM_cons,
          xyStep_skip env m j _ (by omega) (by simpa using hc),
          except_bind_ok, List.foldlM_nil]
        rfl
      · have hje : j = m := by omega
        subst hje
        rw [xyFold_skip env j (List.range j) s (fun i hi => by
            have := List.mem_range.mp hi
            omega) hc, except_bind_ok, List.foldlM_cons,
          xyStep_hit env j v s hc hv hex, except_bind_ok, List.foldlM_nil]
        rfl

theorem xy_notify_ok (env : XyEnv) (j : Nat) (t : PyTime) (s : XyState)
    (v : Int)
    (hfig : s.figure = true) (hlines : s.lines ≠ Option.none)
    (hj : j < env.nInputs) (hv : env.data j t = some v)
    (hex : xyExtractData (env.grid j) v = .ok v) :
    XyState.dataChanged env j t s
      = .ok { s with
              update_counter := if s.time = t then s.update_counter
                else s.update_counter + 1,
              repaints := if s.time = t then s.repaints
                else s.repaints +
                  (if s.update_counter % s.update_interval = 0 then 1 else 0),
              caller := some j, time := t, pulls := s.pulls + 1 } := by
  have hupd : ∀ (s2 : XyState), s2.caller = some j → s2.time = t →
      s2.lines ≠ Option.none →
      XyState.updatePlot env s2 = .ok { s2 with pulls := s2.pulls + 1 } := by
    intro s2 hc ht2 hl
    unfold XyState.updatePlot XyState.createLines
    rw [if_neg hl, except_bind_ok,
      xyFold_range_hit env j v env.nInputs s2 hj hc (by rw [ht2]; exact hv)
        hex]
  unfold XyState.dataChanged
  by_cases ht : s.time = t
  · simp only [ht, ne_eq, not_true_eq_false, if_false, Bool.false_eq_true,
      ite_false, ite_true, except_pure_eq_ok, except_bind_ok]
    rw [hupd { s with caller := some j, time := t } rfl rfl
      (by simpa using hlines)]
  · simp only [ne_eq, ht, not_false_iff, if_true, ite_false]
    by_cases hb : s.update_counter % s.update_interval = 0
    · simp only [hb, ite_true, XyState.repaintXy, hfig, if_true,
        except_bind_ok, except_pure_eq_ok, if_pos]
      rw [hupd { s with
          update_counter := s.update_counter + 1,
          repaints := s.repaints + 1, caller := some j, time := t,
          figure := true } rfl rfl (by simpa using hlines)]
    · simp only [hb, ite_false, except_pure_eq_ok, except_bind_ok]
      rw [hupd { s with
          update_counter := s.update_counter + 1,
          caller := some j, time := t } rfl rfl (by simpa using hlines)]
      simp [hb]

theorem xy_run_notifies (env : XyEnv)
    (htotal : ∀ i t, (env.data i t).isSome)
    (hextract : ∀ i v, xyExtractData (env.grid i) v = .ok v) :
    ∀ (evs : List NotifyEvent) (s : XyState),
      s.figure = true → s.lines ≠ Option.none →
      (∀ e ∈ evs, e.caller < env.nInputs) →
      freshTimes s.time evs = true →
      ∃ s1, XyState.notifyAll env evs s = .ok s1
        ∧ s1.repaints = s.repaints +
            cadenceCount s.update_interval s.update_counter evs.length
        ∧ s1.pulls = s.pulls + evs.length
        ∧ s1.update_counter = s.update_counter + evs.length := by
  intro evs
  induction evs with
  | nil =>
      intro s h2 h3 h4 h5
      exact ⟨s, by simp [XyState.notifyAll], by simp [cadenceCount], by simp,
        by simp⟩
  | cons e evs ih =>
      intro s h2 h3 h4 h5
      obtain ⟨v, hv⟩ := Option.isSome_iff_exists.mp (htotal e.caller e.time)
      unfold freshTimes at h5
      rw [Bool.and_eq_true, decide_eq_true_iff] at h5
      obtain ⟨hfresh1, hfresh2⟩ := h5
      have hne : ¬(s.time = e.time) := fun hh => hfresh1 hh.symm
      have hcall : e.caller < env.nInputs := h4 e (by simp)
      have hstep := xy_notify_ok env e.caller e.time s v h2 h3 hcall hv
        (hextract e.caller v)
      rw [if_neg hne, if_neg hne] at hstep
      unfold XyState.notifyAll
      rw [List.foldlM_cons, hstep, except_bind_ok]
      obtain ⟨s1, hrun, hrep, hpull, hcnt⟩ := ih
        { s with update_counter := s.update_counter + 1,
                 repaints := s.repaints +
                   (if s.update_counter % s.update_interval = 0 then 1 else 0),
                 caller := some e.caller, time := e.time,
                 pulls := s.pulls + 1 }
        (by simpa using h2) (by simpa using h3)
        (fun e2 he2 => h4 e2 (by simp [he2])) (by simpa using hfresh2)
      refine ⟨s1, hrun, ?_, ?_, ?_⟩
      · rw [hrep]
        simp only [List.length_cons, cadenceCount]
        by_cases hb : s.update_counter % s.update_interval = 0 <;>
          simp [hb] <;> omega
      · rw [hpull]
        simp only [List.length_cons]
        omega
      · rw [hcnt]
        simp only [List.length_cons]
        omega

/-- C1 (amended): redraw cadence holds for the components whose notify
path can complete — TimeSeriesPlot (in the data-processing status) and
XyPlot: with update-interval N and a fresh cadence counter, a sequence of
k*N notify calls whose times each differ from the previously seen one
performs exactly k render flushes while pulling data k*N times (one pull
per notify, none dropped).  ContourPlot, the remaining update-interval
component, can never complete a render flush in this snapshot (see the
counterexample and `CtState.renderPass`), so the property fails there. -/
theorem c1_redraw_cadence :
    (∀ (env : TsEnv) (N k : Nat) (evs : List NotifyEvent) (s : TsState),
      1 ≤ N → s.update_interval = N → s.update_counter = 0 →
      s.repaints = 0 → s.pulls = 0 → s.status = .updated →
      s.figure = true → s.lines ≠ Option.none →
      (∀ e ∈ evs, e.caller < env.nInputs) →
      (∀ i t, (env.data i t).isSome) →
      freshTimes s.time evs = true → evs.length = k * N →
      ∃ s1, TsState.notifyAll env evs s = .ok s1
        ∧ s1.repaints = k ∧ s1.pulls = k * N)
  ∧ (∀ (env : XyEnv) (N k : Nat) (evs : List NotifyEvent) (s : XyState),
      1 ≤ N → s.update_interval = N → s.update_counter = 0 →
      s.repaints = 0 → s.pulls = 0 →
      s.figure = true → s.lines ≠ Option.none →
      (∀ e ∈ evs, e.caller < env.nInputs) →
      (∀ i t, (env.data i t).isSome) →
      (∀ i v, xyExtractData (env.grid i) v = .ok v) →
      freshTimes s.time evs = true → evs.length = k * N →
      ∃ s1, XyState.notifyAll env evs s = .ok s1
        ∧ s1.repaints = k ∧ s1.pulls = k * N) := by
  constructor
  · intro env N k evs s hN hint hcnt hrep hpull hst hfig hlines hcallers
      htotal hfresh hlen
    obtain ⟨s1, hrun, hrep1, hpull1, _⟩ :=
      ts_run_notifies env htotal evs s hst hfig hlines hcallers hfresh
    refine ⟨s1, hrun, ?_, ?_⟩
    · rw [hrep1, hrep, hcnt, hint, hlen, cadenceCount_mul N hN k]
      omega
    · rw [hpull1, hpull, hlen]
      omega
  · intro env N k evs s hN hint hcnt hrep hpull hfig hlines hcallers
      htotal hextract hfresh hlen
    obtain ⟨s1, hrun, hrep1, hpull1, _⟩ :=
      xy_run_notifies env htotal hextract evs s hfig hlines hcallers hfresh
    refine ⟨s1, hrun, ?_, ?_⟩
    · rw [hrep1, hrep, hcnt, hint, hlen, cadenceCount_mul N hN k]
      omega
    · rw [hpull1, hpull, hlen]
      omega

def ctFreshW : CtState :=
  { status := .updated
    update_interval := 1
    update_counter := 0
    time := PyTime.datetime 0
    grid := some (Grid.unstructured true true)
    figure := true
    contours := Option.none
    contoursCreations := 0
    triangulate := true
    fill := true
    triangulationSet := false
    repaints := 0
    pulls := 0 }

/-- Counterexample to C1 as stated: ContourPlot is configured with an
update interval (here N = 1) but can never perform a render flush.  With
k = 1, the single notify of the k*N = 1 sequence carries a time distinct
from the previously seen one, the pull succeeds and the repaint falls
due, yet the call raises an attribute error out of the render pass
(ContourPlot._plot dereferences `self._info.grid.axes` as a matplotlib
axes object before ever reaching `self.repaint`), so the number of
render flushes cannot equal k. -/
theorem c1_counterexample :
    ctFreshW.update_interval = 1 ∧ ctFreshW.repaints = 0
  ∧ PyTime.datetime 1 ≠ ctFreshW.time
  ∧ CtState.dataChanged ctEnvSame (PyTime.datetime 1) ctFreshW
      = .error Err.attributeError :=
  ⟨rfl, rfl, by decide, rfl⟩

def tsUpdatedW : TsState :=
  { status := .updated
    update_interval := 2
    update_counter := 0
    time := PyTime.none
    caller := Option.none
    x := [[]]
    data := [[]]
    lines := some 0
    linesCreations := 1
    figure := true
    repaints := 0
    pulls := 0 }

def xyUpdatedW : XyState :=
  { status := .updated
    update_interval := 2
    update_counter := 0
    time := PyTime.none
    caller := Option.none
    lines := some 0
    linesCreations := 1
    figure := true
    repaints := 0
    pulls := 0 }

def evsW : List NotifyEvent :=
  [⟨0, PyTime.datetime 0⟩, ⟨0, PyTime.datetime 1⟩,
   ⟨0, PyTime.datetime 2⟩, ⟨0, PyTime.datetime 3⟩]

/-- Witness for the amended C1: with update-interval 2, four
notifications with four distinct new times yield exactly 2 repaints and
4 data pulls, on a TimeSeriesPlot and on an XyPlot. -/
theorem c1_redraw_cadence_witness :
    (∃ s1, TsState.notifyAll tsEnvW evsW tsUpdatedW = .ok s1
      ∧ s1.repaints = 2 ∧ s1.pulls = 2 * 2)
  ∧ (∃ s1, XyState.notifyAll xyEnvW evsW xyUpdatedW = .ok s1
      ∧ s1.repaints = 2 ∧ s1.pulls = 2 * 2) :=
  ⟨c1_redraw_cadence.1 tsEnvW 2 2 evsW tsUpdatedW (by decide) rfl rfl rfl
     rfl rfl rfl (by decide)
     (by intro e he; fin_cases he <;> decide)
     (fun i t => rfl) (by decide) (by decide),
   c1_redraw_cadence.2 xyEnvW 2 2 evsW xyUpdatedW (by decide) rfl rfl rfl
     rfl rfl (by decide)
     (by intro e he; fin_cases he <;> decide)
     (fun i t => rfl) (fun i v => rfl) (by decide) (by decide)⟩

theorem ts_run_series (env : TsEnv)
    (htotal : ∀ i t, (env.data i t).isSome) (i : Nat) :
    ∀ (evs : List NotifyEvent) (s : TsState),
      s.status = .updated → s.figure = true → s.lines ≠ Option.none →
      (∀ e ∈ evs, e.caller < env.nInputs) →
      i < s.x.length →
      ∃ s1, TsState.notifyAll env evs s = .ok s1
        ∧ s1.x.getD i [] = s.x.getD i [] ++ timesOn i evs
        ∧ s1.x.length = s.x.length := by
  intro evs
  induction evs with
  | nil =>
      intro s h1 h2 h3 h4 h5
      exact ⟨s, by simp [TsState.notifyAll], by simp [timesOn], rfl⟩
  | cons e evs ih =>
      intro s h1 h2 h3 h4 h5
      obtain ⟨v, hv⟩ := Option.isSome_iff_exists.mp (htotal e.caller e.time)
      have hcall : e.caller < env.nInputs := h4 e (by simp)
      have hstep := ts_notify_ok env e.caller e.time s v h1 h2 h3 hcall hv
      unfold TsState.notifyAll
      rw [List.foldlM_cons, hstep, except_bind_ok]
      obtain ⟨s1, hrun, hx, hlen⟩ := ih
        { s with
          update_counter := (if s.time = e.time then s.update_counter
              else s.update_counter + 1),
          repaints := (if s.time = e.time then s.repaints
              else s.repaints +
                (if s.update_counter % s.update_interval = 0 then 1 else 0)),
          caller := some e.caller, time := e.time, pulls := s.pulls + 1,
          x := s.x.set e.caller (s.x.getD e.caller [] ++ [e.time]),
          data := s.data.set e.caller (s.data.getD e.caller [] ++ [v]) }
        (by simpa using h1) (by simpa using h2) (by simpa using h3)
        (fun e2 he2 => h4 e2 (by simp [he2]))
        (by simpa using h5)
      refine ⟨s1, hrun, ?_, ?_⟩
      · rw [hx]
        by_cases hci : e.caller = i
        · subst hci
          simp only [timesOn, List.filter_cons, beq_self_eq_true, if_true,
            List.map_cons, List.getD_eq_getElem?_getD,
            List.getElem?_set_self h5, Option.getD_some]
          simp
        · have hbe : (e.caller == i) = false := by simpa using hci
          simp only [timesOn, List.filter_cons, hbe, if_false,
            List.getD_eq_getElem?_getD, List.getElem?_set_ne hci]
          simp [timesOn]
      · rw [hlen]
        simp

/-- C5: for a TimeSeriesPlot in the data-processing status, if the notify
sequence delivers to input `i` exactly the three times t1 < t2 < t3 (in
that order), then — regardless of the notifications interleaved on the
other inputs — the cached x-series of input `i`, initially empty, equals
exactly [t1, t2, t3] afterwards. -/
theorem c5_series_order (env : TsEnv) (i : Nat) (t1 t2 t3 : Int)
    (evs : List NotifyEvent) (s : TsState)
    (h12 : t1 < t2) (h23 : t2 < t3)
    (hst : s.status = .updated) (hfig : s.figure = true)
    (hlines : s.lines ≠ Option.none)
    (hcallers : ∀ e ∈ evs, e.caller < env.nInputs)
    (htotal : ∀ j t, (env.data j t).isSome)
    (hxlen : i < s.x.length)
    (hmine : timesOn i evs
      = [PyTime.datetime t1, PyTime.datetime t2, PyTime.datetime t3])
    (hempty : s.x.getD i [] = []) :
    ∃ s1, TsState.notifyAll env evs s = .ok s1
      ∧ s1.x.getD i []
        = [PyTime.datetime t1, PyTime.datetime t2, PyTime.datetime t3] := by
  obtain ⟨s1, hrun, hx, _⟩ :=
    ts_run_series env htotal i evs s hst hfig hlines hcallers hxlen
  exact ⟨s1, hrun, by rw [hx, hempty, hmine]; simp⟩

def tsEnv2W : TsEnv :=
  { nInputs := 2, data := fun _ _ => some 7 }

def tsUpdated2W : TsState :=
  { status := .updated
    update_interval := 1
    update_counter := 0
    time := PyTime.none
    caller := Option.none
    x := [[], []]
    data := [[], []]
    lines := some 0
    linesCreations := 1
    figure := true
    repaints := 0
    pulls := 0 }

def evs5W : List NotifyEvent :=
  [⟨0, PyTime.datetime 1⟩, ⟨1, PyTime.datetime 0⟩, ⟨0, PyTime.datetime 2⟩,
   ⟨1, PyTime.datetime 5⟩, ⟨0, PyTime.datetime 3⟩]

/-- Witness for C5: input 0 receives times 1, 2, 3 interleaved with
notifications on input 1; its cached x-series ends up [1, 2, 3]. -/
theorem c5_series_order_witness :
    ∃ s1, TsState.notifyAll tsEnv2W evs5W tsUpdated2W = .ok s1
      ∧ s1.x.getD 0 []
        = [PyTime.datetime 1, PyTime.datetime 2, PyTime.datetime 3] :=
  c5_series_order tsEnv2W 0 1 2 3 evs5W tsUpdated2W (by decide) (by decide)
    rfl rfl (by decide)
    (by intro e he; fin_cases he <;> decide)
    (fun j t => rfl) (by decide) (by decide) (by decide)

theorem except_bind_eq_ok {ε α β : Type} {x : Except ε α}
    {f : α → Except ε β} {b : β} (h : x >>= f = .ok b) :
    ∃ a, x = .ok a ∧ f a = .ok b := by
  cases x with
  | error e => simp at h
  | ok a => exact ⟨a, rfl, h⟩

/-- The single-creation invariant on the TimeSeriesPlot line cache: either
the cache was never assigned, or it was assigned exactly once (and then
holds the stamp of that sole creation). -/
def tsCacheInv (s : TsState) : Prop :=
  (s.lines = Option.none ∧ s.linesCreations = 0)
  ∨ (s.lines = some 0 ∧ s.linesCreations = 1)

/-- The single-creation invariant on the ImagePlot image handle. -/
def imgCacheInv (s : ImgState) : Prop :=
  (s.image = Option.none ∧ s.imageCreations = 0)
  ∨ (s.image = some 0 ∧ s.imageCreations = 1)

theorem tsRepaint_lines (s s1 : TsState) (h : s.repaint = .ok s1) :
    s1.lines = s.lines ∧ s1.linesCreations = s.linesCreations := by
  unfold TsState.repaint at h
  split at h
  · obtain rfl := Except.ok.inj h
    exact ⟨rfl, rfl⟩
  · cases h

theorem tsFold_lines (env : TsEnv) (l : List Nat) :
    ∀ (s s1 : TsState),
      l.foldlM (fun st i => TsState.updatePlotStep env i st) s = .ok s1 →
      s1.lines = s.lines ∧ s1.linesCreations = s.linesCreations := by
  induction l with
  | nil =>
      intro s s1 h
      simp only [List.foldlM_nil, except_pure_eq_ok] at h
      obtain rfl := Except.ok.inj h
      exact ⟨rfl, rfl⟩
  | cons a l ih =>
      intro s s1 h
      rw [List.foldlM_cons] at h
      obtain ⟨s2, hstep, hrest⟩ := except_bind_eq_ok h
      obtain ⟨_, _, _, _, _, _, h7, h8⟩ :=
        tsUpdatePlotStep_frame env a s s2 hstep
      obtain ⟨g7, g8⟩ := ih s2 s1 hrest
      exact ⟨g7.trans h7, g8.trans h8⟩

theorem tsUpdatePlot_lines (env : TsEnv) (s s1 : TsState)
    (h : TsState.updatePlot env s = .ok s1) :
    (tsCacheInv s → tsCacheInv s1)
    ∧ (∀ l, s.lines = some l → s1.lines = some l) := by
  unfold TsState.updatePlot at h
  obtain ⟨s2, hcl, hrest⟩ := except_bind_eq_ok h
  obtain ⟨g7, g8⟩ := tsFold_lines env (List.range env.nInputs) s2 s1 hrest
  unfold TsState.createLines at hcl
  split at hcl
  · rename_i hnone
    split at hcl
    · obtain rfl := Except.ok.inj hcl
      constructor
      · intro hinv
        rcases hinv with ⟨_, hz⟩ | ⟨hsome, _⟩
        · right
          constructor
          · rw [g7]
            simp [hz]
          · rw [g8]
            simp [hz]
        · rw [hnone] at hsome
          cases hsome
      · intro l hl
        rw [hnone] at hl
        cases hl
    · cases hcl
  · obtain rfl := Except.ok.inj hcl
    constructor
    · intro hinv
      rcases hinv with ⟨h1, h2⟩ | ⟨h1, h2⟩
      · exact Or.inl ⟨g7.trans h1, g8.trans h2⟩
      · exact Or.inr ⟨g7.trans h1, g8.trans h2⟩
    · intro l hl
      rw [g7, hl]

theorem tsDataChanged_lines (env : TsEnv) (j : Nat) (t : PyTime)
    (s s1 : TsState) (h : TsState.dataChanged env j t s = .ok s1) :
    (tsCacheInv s → tsCacheInv s1)
    ∧ (∀ l, s.lines = some l → s1.lines = some l) := by
  have hcont : ∀ (s2 : TsState),
      (if ({ s2 with caller := some j, time := t } : TsState).status
            = ComponentStatus.updated ∨
          ({ s2 with caller := some j, time := t } : TsState).status
            = ComponentStatus.validated then
        TsState.updatePlot env { s2 with caller := some j, time := t }
      else pure { s2 with caller := some j, time := t }) = .ok s1 →
      s2.lines = s.lines → s2.linesCreations = s.linesCreations →
      ((tsCacheInv s → tsCacheInv s1)
       ∧ (∀ l, s.lines = some l → s1.lines = some l)) := by
    intro s2 hk hl hc
    split at hk
    · obtain ⟨hi, hst⟩ := tsUpdatePlot_lines env _ s1 hk
      constructor
      · intro hinv
        apply hi
        unfold tsCacheInv at hinv ⊢
        simpa [hl, hc] using hinv
      · intro l hll
        apply hst
        simpa [hl] using hll
    · obtain rfl := Except.ok.inj hk
      constructor
      · intro hinv
        unfold tsCacheInv at hinv ⊢
        simpa [hl, hc] using hinv
      · intro l hll
        simpa [hl] using hll
  unfold TsState.dataChanged at h
  dsimp only [shouldRepaint] at h
  split at h
  · split at h
    · obtain ⟨s2, hrep, hrest⟩ := except_bind_eq_ok h
      obtain ⟨hl, hc⟩ := tsRepaint_lines _ s2 hrep
      exact hcont s2 hrest (by simpa using hl) (by simpa using hc)
    · rw [except_pure_eq_ok, except_bind_ok] at h
      dsimp only at h
      exact hcont { s with update_counter := s.update_counter + 1 } h rfl rfl
  · rw [except_pure_eq_ok, except_bind_ok] at h
    exact hcont s h rfl rfl

theorem tsValidate_lines (env : TsEnv) (s s1 : TsState)
    (h : TsState.validateComp env s = .ok s1) :
    (tsCacheInv s → tsCacheInv s1)
    ∧ (∀ l, s.lines = some l → s1.lines = some l) := by
  unfold TsState.validateComp at h
  obtain ⟨s2, hup, hrest⟩ := except_bind_eq_ok h
  obtain ⟨hi, hst⟩ := tsUpdatePlot_lines env _ s2 hup
  have h1 : s1.lines = s2.lines ∧ s1.linesCreations = s2.linesCreations := by
    split at hrest
    · obtain rfl := Except.ok.inj hrest
      exact ⟨rfl, rfl⟩
    · cases hrest
  constructor
  · intro hinv
    have hinv2 := hi (by
      unfold tsCacheInv at hinv ⊢
      simpa using hinv)
    unfold tsCacheInv at hinv2 ⊢
    simpa [h1.1, h1.2] using hinv2
  · intro l hl
    rw [h1.1]
    exact hst l (by simpa using hl)

theorem tsStep_lines (env : TsEnv) (a : TsAction) (s s1 : TsState)
    (h : TsState.stepAction env s a = .ok s1) :
    (tsCacheInv s → tsCacheInv s1)
    ∧ (∀ l, s.lines = some l → s1.lines = some l) := by
  cases a with
  | hostStatus st =>
      obtain rfl := Except.ok.inj h
      constructor
      · intro hinv
        unfold tsCacheInv at hinv ⊢
        simpa using hinv
      · intro l hl
        simpa using hl
  | notify caller time => exact tsDataChanged_lines env caller time s s1 h
  | connectCall =>
      obtain rfl := Except.ok.inj h
      unfold TsState.connectFigure
      by_cases hf : s.figure = true
      · constructor
        · intro hinv
          simpa [hf] using hinv
        · intro l hl
          simpa [hf] using hl
      · constructor
        · intro hinv
          unfold tsCacheInv at hinv ⊢
          simp only [Bool.not_eq_true] at hf
          simpa [hf] using hinv
        · intro l hl
          simp only [Bool.not_eq_true] at hf
          simpa [hf] using hl
  | validateCall => exact tsValidate_lines env s s1 h
  | finalizeCall =>
      obtain ⟨h7, h8⟩ := tsRepaint_lines s s1 h
      constructor
      · intro hinv
        unfold tsCacheInv at hinv ⊢
        simpa [h7, h8] using hinv
      · intro l hl
        rw [h7, hl]

theorem tsRun_inv (env : TsEnv) :
    ∀ (acts : List TsAction) (s s1 : TsState),
      TsState.run env acts s = .ok s1 → tsCacheInv s → tsCacheInv s1 := by
  intro acts
  induction acts with
  | nil =>
      intro s s1 h hinv
      unfold TsState.run at h
      simp only [List.foldlM_nil, except_pure_eq_ok] at h
      obtain rfl := Except.ok.inj h
      exact hinv
  | cons a acts ih =>
      intro s s1 h hinv
      unfold TsState.run at h
      rw [List.foldlM_cons] at h
      obtain ⟨s2, hstep, hrest⟩ := except_bind_eq_ok h
      exact ih s2 s1 hrest ((tsStep_lines env a s s2 hstep).1 hinv)

theorem imgPlotImage_image (d : Int) (s s1 : ImgState)
    (h : ImgState.plotImage d s = .ok s1) :
    (imgCacheInv s → imgCacheInv s1)
    ∧ (∀ l, s.image = some l → s1.image = some l) := by
  unfold ImgState.plotImage at h
  split at h
  · split at h
    · rename_i hnone
      obtain rfl := Except.ok.inj h
      constructor
      · intro hinv
        rcases hinv with ⟨_, hz⟩ | ⟨hsome, _⟩
        · right
          simp [hz]
        · rw [hnone] at hsome
          cases hsome
      · intro l hl
        rw [hnone] at hl
        cases hl
    · obtain rfl := Except.ok.inj h
      exact ⟨fun hinv => hinv, fun l hl => hl⟩
  · cases h

theorem imgPlot_image (env : ImgEnv) (s s1 : ImgState)
    (h : ImgState.plot env s = .ok s1) :
    (imgCacheInv s → imgCacheInv s1)
    ∧ (∀ l, s.image = some l → s1.image = some l) := by
  unfold ImgState.plot at h
  cases hd : env.data s.time <;> rw [hd] at h <;> dsimp only at h
  · split at h
    · obtain rfl := Except.ok.inj h
      exact ⟨fun hinv => hinv, fun l hl => hl⟩
    · cases h
  · obtain ⟨s2, himg, hrest⟩ := except_bind_eq_ok h
    have h1 : s1.image = s2.image ∧ s1.imageCreations = s2.imageCreations := by
      obtain rfl := Except.ok.inj hrest
      exact ⟨rfl, rfl⟩
    have key : (imgCacheInv s → imgCacheInv s2)
        ∧ (∀ l, s.image = some l → s2.image = some l) := by
      split at himg
      · obtain ⟨hi, hst⟩ := imgPlotImage_image _ _ s2 himg
        constructor
        · intro hinv
          apply hi
          unfold imgCacheInv at hinv ⊢
          simpa using hinv
        · intro l hl
          exact hst l (by simpa using hl)
      · obtain ⟨hi, hst⟩ := imgPlotImage_image _ _ s2 himg
        constructor
        · intro hinv
          apply hi
          unfold imgCacheInv at hinv ⊢
          simpa using hinv
        · intro l hl
          exact hst l (by simpa using hl)
    constructor
    · intro hinv
      have hk := key.1 hinv
      unfold imgCacheInv at hk ⊢
      simpa [h1.1, h1.2] using hk
    · intro l hl
      rw [h1.1]
      exact key.2 l hl

theorem imgDataChanged_image (env : ImgEnv) (t : PyTime) (s s1 : ImgState)
    (h : ImgState.dataChanged env t s = .ok s1) :
    (imgCacheInv s → imgCacheInv s1)
    ∧ (∀ l, s.image = some l → s1.image = some l) := by
  unfold ImgState.dataChanged at h
  split at h
  · cases h
  · dsimp only at h
    split at h
    · unfold ImgState.update at h
      obtain ⟨hi, hst⟩ := imgPlot_image env _ s1 h
      constructor
      · intro hinv
        apply hi
        unfold imgCacheInv at hinv ⊢
        simpa using hinv
      · intro l hl
        exact hst l (by simpa using hl)
    · obtain ⟨hi, hst⟩ := imgPlot_image env _ s1 h
      constructor
      · intro hinv
        apply hi
        unfold imgCacheInv at hinv ⊢
        simpa using hinv
      · intro l hl
        exact hst l (by simpa using hl)

theorem imgConnect_image (inInfo : Option Grid) (s s1 : ImgState)
    (h : ImgState.connect inInfo s = .ok s1) :
    (imgCacheInv s → imgCacheInv s1)
    ∧ (∀ l, s.image = some l → s1.image = some l) := by
  unfold ImgState.connect at h
  cases inInfo with
  | none =>
      obtain rfl := Except.ok.inj h
      exact ⟨fun hinv => hinv, fun l hl => hl⟩
  | some g =>
      dsimp only at h
      obtain ⟨u, _, hrest⟩ := except_bind_eq_ok h
      obtain rfl := Except.ok.inj hrest
      constructor
      · intro hinv
        unfold imgCacheInv at hinv ⊢
        simpa using hinv
      · intro l hl
        simpa using hl

theorem imgStep_image (env : ImgEnv) (a : ImgAction) (s s1 : ImgState)
    (h : ImgState.stepAction env s a = .ok s1) :
    (imgCacheInv s → imgCacheInv s1)
    ∧ (∀ l, s.image = some l → s1.image = some l) := by
  cases a with
  | hostStatus st =>
      obtain rfl := Except.ok.inj h
      constructor
      · intro hinv
        unfold imgCacheInv at hinv ⊢
        simpa using hinv
      · intro l hl
        simpa using hl
  | notify time => exact imgDataChanged_image env time s s1 h
  | updateCall => exact imgPlot_image env s s1 h
  | connectCall inInfo => exact imgConnect_image inInfo s s1 h
  | finalizeCall =>
      obtain rfl := Except.ok.inj h
      exact ⟨fun hinv => hinv, fun l hl => hl⟩

theorem imgRun_inv (env : ImgEnv) :
    ∀ (acts : List ImgAction) (s s1 : ImgState),
      ImgState.run env acts s = .ok s1 → imgCacheInv s → imgCacheInv s1 := by
  intro acts
  induction acts with
  | nil =>
      intro s s1 h hinv
      unfold ImgState.run at h
      simp only [List.foldlM_nil, except_pure_eq_ok] at h
      obtain rfl := Except.ok.inj h
      exact hinv
  | cons a acts ih =>
      intro s s1 h hinv
      unfold ImgState.run at h
      rw [List.foldlM_cons] at h
      obtain ⟨s2, hstep, hrest⟩ := except_bind_eq_ok h
      exact ih s2 s1 hrest ((imgStep_image env a s s2 hstep).1 hinv)

/-- C9: drawable-cache single creation.  Starting from a freshly
initialized component, any host-driven run (status transitions, notify
callbacks, connect, validate, update, finalize) that completes without
error assigns the drawable cache — the TimeSeriesPlot line-handle list or
the ImagePlot image handle — a non-None value at most once; moreover a
cache handle, once set, survives every single step unchanged (the backend
object is only mutated in place, never replaced). -/
theorem c9_drawable_cache_single_creation :
    (∀ (env : TsEnv) (n N : Nat) (acts : List TsAction) (s1 : TsState),
        TsState.run env acts ((TsState.fresh n N).initComp) = .ok s1 →
        s1.linesCreations ≤ 1)
  ∧ (∀ (env : ImgEnv) (acts : List ImgAction) (s1 : ImgState),
        ImgState.run env acts (ImgState.fresh.initComp) = .ok s1 →
        s1.imageCreations ≤ 1)
  ∧ (∀ (env : TsEnv) (a : TsAction) (s s1 : TsState) (l : Nat),
        TsState.stepAction env s a = .ok s1 → s.lines = some l →
        s1.lines = some l)
  ∧ (∀ (env : ImgEnv) (a : ImgAction) (s s1 : ImgState) (l : Nat),
        ImgState.stepAction env s a = .ok s1 → s.image = some l →
        s1.image = some l) := by
  refine ⟨?_, ?_, ?_, ?_⟩
  · intro env n N acts s1 h
    have hinv := tsRun_inv env acts _ s1 h (by
      unfold tsCacheInv
      exact Or.inl ⟨rfl, rfl⟩)
    rcases hinv with ⟨_, hz⟩ | ⟨_, hz⟩ <;> omega
  · intro env acts s1 h
    have hinv := imgRun_inv env acts _ s1 h (by
      unfold imgCacheInv
      exact Or.inl ⟨rfl, rfl⟩)
    rcases hinv with ⟨_, hz⟩ | ⟨_, hz⟩ <;> omega
  · intro env a s s1 l h hl
    exact (tsStep_lines env a s s1 h).2 l hl
  · intro env a s s1 l h hl
    exact (imgStep_image env a s s1 h).2 l hl

def tsActsW : List TsAction :=
  [.connectCall, .hostStatus .updated, .notify 0 (PyTime.datetime 0)]

def tsRunResW : TsState :=
  { status := .updated
    update_interval := 1
    update_counter := 1
    time := PyTime.datetime 0
    caller := some 0
    x := [[PyTime.datetime 0]]
    data := [[0]]
    lines := some 0
    linesCreations := 1
    figure := true
    repaints := 1
    pulls := 1 }

def imgEnvW : ImgEnv :=
  { data := fun _ => some 3 }

def imgActsW : List ImgAction :=
  [.connectCall (some (Grid.uniform 2)), .hostStatus .updated,
   .notify (PyTime.datetime 0)]

def imgRunResW : ImgState :=
  { status := .updated
    time := PyTime.datetime 0
    figure := true
    axes := (0, 1)
    info := some (Grid.uniform 2)
    image := some 0
    imageCreations := 1
    repaints := 1
    pulls := 1 }

/-- Witness for C9: a concrete lifecycle run of each component creates its
drawable cache exactly once, and one more step on the resulting state
keeps the same handle. -/
theorem c9_drawable_cache_single_creation_witness :
    tsRunResW.linesCreations ≤ 1
  ∧ imgRunResW.imageCreations ≤ 1
  ∧ ({ tsRunResW with repaints := 2 } : TsState).lines = some 0
  ∧ ({ imgRunResW with
       time := PyTime.datetime 1, repaints := 2,
       pulls := 2 } : ImgState).image = some 0 :=
  ⟨c9_drawable_cache_single_creation.1 tsEnvW 1 1 tsActsW tsRunResW rfl,
   c9_drawable_cache_single_creation.2.1 imgEnvW imgActsW imgRunResW rfl,
   c9_drawable_cache_single_creation.2.2.1 tsEnvW TsAction.finalizeCall
     tsRunResW { tsRunResW with repaints := 2 } 0 rfl rfl,
   c9_drawable_cache_single_creation.2.2.2 imgEnvW
     (ImgAction.notify (PyTime.datetime 1)) imgRunResW
     { imgRunResW with
       time := PyTime.datetime 1, repaints := 2, pulls := 2 } 0 rfl rfl⟩
